import Mathlib

/-!
Verification of the DailyChow wallet-ledger and payment/transfer
reconciliation engine against its natural-language specification.

The Python source is shallowly embedded: monetary amounts (Python
`Decimal`/`float`) become `ℚ`; database tables become lists inside an
explicit state record; each stateful operation becomes a pure function
from state to state (paired with an `Except` outcome where the Python
code can raise).  Side tables not referenced by any verified property
(`security_events`, `service_metrics`) are omitted from the state.
-/

namespace DailyChow

/- ===================================================================
   Microservices data model — services/database_service.py
   =================================================================== -/

/-- A row of the `users` table (the columns touched by the core:
`user_id`, `wallet_balance`, `monthly_budget`, `daily_allowance`). -/
structure DBUser where
  userId : Int
  walletBalance : ℚ
  monthlyBudget : ℚ
  dailyAllowance : ℚ
deriving DecidableEq

/-- A row of the `payments` table (the columns the verified properties
read: `user_id`, `reference`, `amount`, `status`). -/
structure Payment where
  userId : Int
  reference : String
  amount : ℚ
  status : String
deriving DecidableEq

/-- A row of the `spending_history` table. -/
structure SpendEntry where
  userId : Int
  description : String
  amount : ℚ
  category : Option String
  transactionType : String
deriving DecidableEq

/-- The persistent store owned by `DatabaseService`. -/
structure DBState where
  users : List DBUser
  payments : List Payment
  spending : List SpendEntry
deriving DecidableEq

/-- Read a user's wallet balance (`SELECT wallet_balance FROM users
WHERE user_id = $1`). -/
def getBalance (st : DBState) (uid : Int) : Option ℚ :=
  (st.users.find? (fun u => u.userId == uid)).map DBUser.walletBalance

/-- Write a user's wallet balance (`UPDATE users SET wallet_balance =
$2 WHERE user_id = $1`). -/
def setBalance (st : DBState) (uid : Int) (newBal : ℚ) : DBState :=
  { st with users := st.users.map fun u =>
      if u.userId = uid then { u with walletBalance := newBal } else u }

/-- `DatabaseService.update_user_balance` (database_service.py:335-363).
Reads the current balance inside a transaction; `add` always succeeds,
`subtract` raises `DatabaseError("Insufficient balance")` (rolling the
transaction back, so the state is unchanged) when the result would be
negative.  The returned pair is (state after the call, outcome). -/
def updateUserBalance (st : DBState) (uid : Int) (amount : ℚ)
    (operation : String) : DBState × Except String ℚ :=
  match getBalance st uid with
  | none => (st, .error "User not found")
  | some cur =>
    if operation = "add" then
      (setBalance st uid (cur + amount), .ok (cur + amount))
    else if operation = "subtract" then
      if cur - amount < 0 then (st, .error "Insufficient balance")
      else (setBalance st uid (cur - amount), .ok (cur - amount))
    else (st, .error "Invalid operation")

/-- `DatabaseService.update_payment_status` (database_service.py:388-403):
`UPDATE payments SET status = $2 ... WHERE reference = $1` — the update
is unconditional: it does not test the stored status. -/
def updatePaymentStatus (st : DBState) (reference status : String) : DBState :=
  { st with payments := st.payments.map fun p =>
      if p.reference = reference then { p with status := status } else p }

/-- `DatabaseService.log_spending` (database_service.py:442-459):
appends one row to `spending_history`. -/
def logSpending (st : DBState) (uid : Int) (description : String)
    (amount : ℚ) (category : Option String) (transactionType : String) :
    DBState :=
  { st with spending :=
      st.spending ++ [⟨uid, description, amount, category, transactionType⟩] }

/-- Round to an integer with ties away from zero — the rounding
PostgreSQL applies when a `numeric` value is coerced to a column's
scale on write. -/
def roundHalfAwayFromZero (q : ℚ) : ℤ :=
  if q < 0 then -⌊-q + 1 / 2⌋ else ⌊q + 1 / 2⌋

/-- Writing into a `DECIMAL(10,2)` column: the value is rounded to 2
fractional digits, ties away from zero. -/
def pgRound2 (q : ℚ) : ℚ := (roundHalfAwayFromZero (q * 100) : ℚ) / 100

/-- `DatabaseService.update_user_budget` (database_service.py:324-333):
`daily_allowance = budget / 30` is computed on `Decimal` and written
into the `monthly_budget` / `daily_allowance` columns, both declared
`DECIMAL(10,2)` by this service's own schema (database_service.py:158,
160), so the stored values are the written ones coerced to scale 2,
ties away from zero.  (`Decimal` division rounds to 28 significant
digits first; at every input this file evaluates the exact quotient is
a finite decimal inside that precision, so the composition equals
`pgRound2` of the exact quotient.) -/
def updateUserBudget (st : DBState) (uid : Int) (budget : ℚ) : DBState :=
  { st with users := st.users.map fun u =>
      if u.userId = uid then
        { u with monthlyBudget := pgRound2 budget,
                 dailyAllowance := pgRound2 (budget / 30) }
      else u }

/-- Read a user's stored `daily_allowance`. -/
def getDailyAllowance (st : DBState) (uid : Int) : Option ℚ :=
  (st.users.find? (fun u => u.userId == uid)).map DBUser.dailyAllowance

/- ===================================================================
   Payment reconciler — services/payment_service.py
   =================================================================== -/

/-- The `data` object of a Korapay charge response / webhook payload:
the fields the code reads (`reference`, `status`, `amount`,
`metadata.user_id`).  A missing `reference` is modelled as `""` (both
`None` and `""` are falsy under the code's `if not reference` test);
a missing `metadata.user_id` is `none`, and `some 0` is likewise falsy
under Python's `if user_id`. -/
structure ProviderData where
  reference : String
  status : String
  amount : ℚ
  metaUserId : Option Int
deriving DecidableEq

/-- Python `str.lower`, character-wise (the statuses handled here are
ASCII). -/
def strLower (s : String) : String := ⟨s.data.map Char.toLower⟩

/-- `PaymentService.verify_payment` (payment_service.py:187-280), given
the provider's response body `pd` for `reference`.  The stored status is
updated first, unconditionally; then, if the provider reports
`"success"` and the metadata carries a truthy `user_id` and a positive
amount, the wallet is credited and a top-up row is logged.  There is no
check of the locally stored status.  A failing credit (user not found)
propagates as an exception after the status update has committed. -/
def verifyPayment (st : DBState) (reference : String) (pd : ProviderData) :
    DBState × Except String String :=
  let paymentStatus := strLower pd.status
  let st1 := updatePaymentStatus st reference paymentStatus
  if paymentStatus = "success" then
    match pd.metaUserId with
    | some uid =>
      if uid ≠ 0 ∧ 0 < pd.amount then
        match updateUserBalance st1 uid pd.amount "add" with
        | (st2, .ok _) =>
          (logSpending st2 uid
            ("Wallet top-up via Korapay - Ref: " ++ reference)
            pd.amount (some "topup") "credit", .ok paymentStatus)
        | (st2, .error e) => (st2, .error e)
      else (st1, .ok paymentStatus)
    | none => (st1, .ok paymentStatus)
  else (st1, .ok paymentStatus)

/-- `PaymentService._process_successful_payment`
(payment_service.py:329-358).  When `metadata.user_id` is missing (or
falsy) the function returns before touching the store — in particular
before `update_payment_status`.  Otherwise it marks the payment
`"successful"`, credits the metadata user and logs the top-up. -/
def processSuccessfulPayment (st : DBState) (pd : ProviderData) :
    DBState × Except String Unit :=
  match pd.metaUserId with
  | none => (st, .ok ())
  | some uid =>
    if uid = 0 then (st, .ok ())
    else
      let st1 := updatePaymentStatus st pd.reference "successful"
      match updateUserBalance st1 uid pd.amount "add" with
      | (st2, .ok _) =>
        (logSpending st2 uid
          ("Wallet top-up confirmed - Ref: " ++ pd.reference)
          pd.amount (some "topup") "credit", .ok ())
      | (st2, .error e) => (st2, .error e)

/-- `PaymentService._process_failed_payment` (payment_service.py:360-368). -/
def processFailedPayment (st : DBState) (pd : ProviderData) :
    DBState × Except String Unit :=
  (updatePaymentStatus st pd.reference "failed", .ok ())

/-- A webhook payload: event name plus charge data. -/
structure WebhookData where
  event : String
  data : ProviderData
deriving DecidableEq

/-- `PaymentService._verify_webhook_signature`
(payment_service.py:312-327): recomputes HMAC-SHA256 (abstracted as
`hmacHex secret payload`) over the canonical serialization of the
payload (abstracted as `jsonDumps`) and compares it with the supplied
signature via `hmac.compare_digest` (a constant-time equality). -/
def verifyWebhookSignature (hmacHex : String → String → String)
    (jsonDumps : WebhookData → String) (secret : String)
    (wd : WebhookData) (signature : String) : Bool :=
  signature == hmacHex secret (jsonDumps wd)

/-- `PaymentService.handle_webhook` (payment_service.py:282-310).
A signature mismatch raises before any store access; a missing
reference likewise; otherwise the matching settlement path runs. -/
def handleWebhook (hmacHex : String → String → String)
    (jsonDumps : WebhookData → String) (secret : String)
    (st : DBState) (wd : WebhookData) (signature : String) :
    DBState × Except String Unit :=
  if verifyWebhookSignature hmacHex jsonDumps secret wd signature then
    if wd.data.reference = "" then
      (st, .error "Missing payment reference in webhook")
    else if wd.event = "charge.success" then
      processSuccessfulPayment st wd.data
    else if wd.event = "charge.failed" then
      processFailedPayment st wd.data
    else (st, .ok ())
  else (st, .error "Invalid webhook signature")

/- ===================================================================
   Gateway clients' retry loops —
   services/transfer_service.py:346-379 (Monnify) and
   services/payment_service.py:370-394 (Korapay)
   =================================================================== -/

/-- What one HTTP attempt produces: a status code with the provider's
message, or a network-level client error. -/
inductive ApiResponse where
  | http (status : Nat) (message : String)
  | netError (message : String)
deriving DecidableEq

deriving instance DecidableEq for Except

/-- The observable outcome of a `_make_api_request` call: success (with
the index of the attempt that succeeded) or the raised error message,
together with how many re-authentications were performed and which
backoff delays were slept, in order. -/
structure ApiResult where
  outcome : Except String Nat
  reauthCount : Nat
  sleeps : List Nat
deriving DecidableEq

/-- `TransferService.retry_delays` (transfer_service.py:58). -/
def monnifyDelays : List Nat := [2, 5, 10]

/-- `PaymentService.retry_delays` (payment_service.py:57). -/
def korapayDelays : List Nat := [1, 2, 4]

/-- The body of `TransferService._make_api_request`'s `for attempt in
range(self.max_retries)` loop, with `fuel` the number of remaining
attempts (`max_retries - attempt`); `responses attempt` is what the
network returns on that attempt.  A 200 returns; a 401 re-authenticates
and, when attempts remain, retries immediately (no sleep); a 5xx with
attempts remaining sleeps `retry_delays[attempt]` and retries; every
other status (403 included) raises at once; a network error retries
like a 5xx.  Falling off the loop raises "Max retries exceeded". -/
def monnifyAttempt (responses : Nat → ApiResponse) :
    Nat → Nat → Nat → List Nat → ApiResult
  | 0, _, reauths, sleeps => ⟨.error "Max retries exceeded", reauths, sleeps⟩
  | fuel + 1, attempt, reauths, sleeps =>
    match responses attempt with
    | .http 200 _ => ⟨.ok attempt, reauths, sleeps⟩
    | .http 401 _ => monnifyAttempt responses fuel (attempt + 1) (reauths + 1) sleeps
    | .http s msg =>
      if 500 ≤ s ∧ fuel ≠ 0 then
        monnifyAttempt responses fuel (attempt + 1) reauths
          (sleeps ++ [monnifyDelays.getD attempt 0])
      else
        ⟨.error ("API request failed: " ++ toString s ++ " - " ++ msg),
          reauths, sleeps⟩
    | .netError msg =>
      if fuel = 0 then ⟨.error ("Network error: " ++ msg), reauths, sleeps⟩
      else
        monnifyAttempt responses fuel (attempt + 1) reauths
          (sleeps ++ [monnifyDelays.getD attempt 0])

/-- `TransferService._make_api_request` (transfer_service.py:346-379):
three attempts (`max_retries = 3`). -/
def monnifyRequest (responses : Nat → ApiResponse) : ApiResult :=
  monnifyAttempt responses 3 0 0 []

/-- The body of `PaymentService._make_api_request`'s retry loop
(payment_service.py:370-394).  Unlike the Monnify client there is no
re-authentication path: a 401 or 403 raises "Authentication failed"
immediately; 5xx and network errors retry with `retry_delays`. -/
def korapayAttempt (responses : Nat → ApiResponse) :
    Nat → Nat → List Nat → ApiResult
  | 0, _, sleeps => ⟨.error "Max retries exceeded", 0, sleeps⟩
  | fuel + 1, attempt, sleeps =>
    match responses attempt with
    | .http 200 _ => ⟨.ok attempt, 0, sleeps⟩
    | .http 401 msg => ⟨.error ("Authentication failed: " ++ msg), 0, sleeps⟩
    | .http 403 msg => ⟨.error ("Authentication failed: " ++ msg), 0, sleeps⟩
    | .http s msg =>
      if 500 ≤ s ∧ fuel ≠ 0 then
        korapayAttempt responses fuel (attempt + 1)
          (sleeps ++ [korapayDelays.getD attempt 0])
      else
        ⟨.error ("API request failed: " ++ toString s ++ " - " ++ msg),
          0, sleeps⟩
    | .netError msg =>
      if fuel = 0 then ⟨.error ("Network error: " ++ msg), 0, sleeps⟩
      else
        korapayAttempt responses fuel (attempt + 1)
          (sleeps ++ [korapayDelays.getD attempt 0])

/-- `PaymentService._make_api_request` (payment_service.py:370-394):
three attempts (`max_retries = 3`). -/
def korapayRequest (responses : Nat → ApiResponse) : ApiResult :=
  korapayAttempt responses 3 0 []

/- ===================================================================
   Bank account validation — services/bank_service.py:57-89, 272-285
   =================================================================== -/

/-- `BankService._is_valid_account_number` (bank_service.py:272-285):
digits only and exactly 10 of them.  (Python `str.isdigit` also accepts
some non-ASCII digit characters; the account numbers considered here
are ASCII.) -/
def isValidAccountNumber (s : String) : Bool :=
  s.data.all Char.isDigit && s.length == 10

/-- The provider's reply to `POST /disbursements/account/validate`, as
read by `BankService.validate_bank_account`. -/
structure ValidationResp where
  requestSuccessful : Bool
  accountName : String
deriving DecidableEq

/-- The account info `BankService.validate_bank_account` returns on
success. -/
structure AccountInfo where
  accountNumber : String
  bankCode : String
  accountName : String
deriving DecidableEq

/-- `BankService.validate_bank_account` (bank_service.py:57-89).
`gateway` stands for `TransferService.validate_bank_account` — the hop
that talks to (or caches replies from) the network; `none` is that call
raising.  The second component counts how many gateway calls were made:
a format-check failure returns `None` before any call. -/
def bankValidateAccount (gateway : String → String → Option ValidationResp)
    (accountNumber bankCode : String) : Option AccountInfo × Nat :=
  if isValidAccountNumber accountNumber then
    match gateway accountNumber bankCode with
    | none => (none, 1)
    | some resp =>
      if resp.requestSuccessful then
        (some ⟨accountNumber, bankCode, resp.accountName⟩, 1)
      else (none, 1)
  else (none, 0)

/- ===================================================================
   Legacy store — database.py — and the daily job — scheduler.py
   =================================================================== -/

/-- A row of the legacy `users` table (database.py:116-126), with the
`preferences.bank_details.recipient_code` JSONB field the scheduler
reads. -/
structure LegacyUser where
  userId : Int
  monthlyBudget : ℚ
  dailyAllowance : ℚ
  walletBalance : ℚ
  recipientCode : Option String
deriving DecidableEq

/-- A row of the legacy `spending_history` table (database.py:138-148). -/
structure LegacySpend where
  userId : Int
  description : String
  amount : ℚ
  transactionType : String
deriving DecidableEq

/-- The legacy persistent store. -/
structure LegacyState where
  users : List LegacyUser
  history : List LegacySpend
deriving DecidableEq

/-- `update_wallet_balance` (database.py:299-315):
`UPDATE users SET wallet_balance = wallet_balance ± abs(amount)` —
unconditional; there is no balance check on the debit side. -/
def updateWalletBalance (st : LegacyState) (uid : Int) (amount : ℚ)
    (isTopUp : Bool) : LegacyState :=
  { st with users := st.users.map fun u =>
      if u.userId = uid then
        { u with walletBalance :=
            u.walletBalance + (if isTopUp then |amount| else -|amount|) }
      else u }

/-- `log_spending` (database.py:317-335): appends one row to
`spending_history`; it does not touch `users`. -/
def legacyLogSpending (st : LegacyState) (uid : Int) (description : String)
    (amount : ℚ) (transactionType : String) : LegacyState :=
  { st with history := st.history ++ [⟨uid, description, amount, transactionType⟩] }

/-- Read a user's wallet balance from the legacy store. -/
def legacyBalance (st : LegacyState) (uid : Int) : Option ℚ :=
  (st.users.find? (fun u => u.userId == uid)).map LegacyUser.walletBalance

/-- Sum of a user's transaction-log amounts in the legacy store. -/
def userLogSum (st : LegacyState) (uid : Int) : ℚ :=
  (st.history.filter (fun e => e.userId == uid)).foldl (fun a e => a + e.amount) 0

/-- Round-half-even to an integer, the rounding Python's built-in
`round` applies.  (On `float` inputs ties are taken on the binary
representation; at the inputs evaluated in this file the rational and
float results agree.) -/
def roundHalfEven (q : ℚ) : ℤ :=
  let f := ⌊q⌋
  if q - f < 1 / 2 then f
  else if 1 / 2 < q - f then f + 1
  else if f % 2 = 0 then f else f + 1

/-- Python `round(x, 2)`. -/
def roundTo2 (q : ℚ) : ℚ := (roundHalfEven (q * 100) : ℚ) / 100

/-- `set_user_budget` (database.py:243-297): computes
`daily_allowance = round(monthly_budget / 30, 2)`, upserts the row
(UPDATE, falling back to INSERT ... ON CONFLICT DO UPDATE when the user
does not exist) and returns the allowance.  No bounds validation is
performed here. -/
def setUserBudget (st : LegacyState) (uid : Int) (monthly : ℚ) :
    LegacyState × ℚ :=
  let allowance := roundTo2 (monthly / 30)
  if st.users.any (fun u => u.userId == uid) then
    ({ st with users := st.users.map fun u =>
        if u.userId = uid then
          { u with monthlyBudget := monthly, dailyAllowance := allowance }
        else u }, allowance)
  else
    ({ st with users :=
        st.users ++ [⟨uid, monthly, allowance, 0, none⟩] }, allowance)

/-- The eligibility filter of
`scheduled_daily_allowance_deduction_and_transfer` (scheduler.py:125-127):
`daily_allowance > 0 AND wallet_balance >= daily_allowance AND`
a `bank_details.recipient_code` present in preferences.  The rows are
snapshotted before any user is processed. -/
def eligibleUsers (st : LegacyState) : List LegacyUser :=
  st.users.filter fun u =>
    decide (0 < u.dailyAllowance) &&
    decide (u.dailyAllowance ≤ u.walletBalance) &&
    u.recipientCode.isSome

/-- The per-user body of the scheduler loop (scheduler.py:130-177):
debit the wallet (no reference, no idempotency key), log the deduction,
then attempt the Paystack transfer — `transferOk` abstracts the
provider's answer — logging a zero-amount entry either way. -/
def processAllowanceUser (transferOk : Int → Bool) (today : String)
    (st : LegacyState) (u : LegacyUser) : LegacyState :=
  let st1 := updateWalletBalance st u.userId u.dailyAllowance false
  let st2 := legacyLogSpending st1 u.userId
    ("Daily allowance deduction for " ++ today) (-u.dailyAllowance) "expense"
  match u.recipientCode with
  | some rc =>
    if rc ≠ "" then
      if transferOk u.userId then
        legacyLogSpending st2 u.userId "Paystack transfer initiated" 0 "expense"
      else
        legacyLogSpending st2 u.userId "Paystack transfer initiation failed" 0 "expense"
    else st2
  | none => st2

/-- `scheduled_daily_allowance_deduction_and_transfer`
(scheduler.py:120-177): snapshot the eligible users, then process each
in turn. -/
def dailyAllowanceJob (transferOk : Int → Bool) (today : String)
    (st : LegacyState) : LegacyState :=
  (eligibleUsers st).foldl (processAllowanceUser transferOk today) st

/- ===================================================================
   Helper lemmas
   =================================================================== -/

/-- The signed delta `update_wallet_balance` applies:
`+abs(amount)` on a top-up, `-abs(amount)` on a debit. -/
def signedDelta (amount : ℚ) (isTopUp : Bool) : ℚ :=
  if isTopUp then |amount| else -|amount|

/-- Run a sequence of `update_wallet_balance` calls for one user. -/
def applyWalletOps (st : LegacyState) (uid : Int) (ops : List (ℚ × Bool)) :
    LegacyState :=
  ops.foldl (fun s op => updateWalletBalance s uid op.1 op.2) st

theorem findBalance_mapUpdate (l : List LegacyUser) (uid : Int) (d : ℚ) :
    ((l.map fun u =>
        if u.userId = uid then { u with walletBalance := u.walletBalance + d }
        else u).find? (fun u => u.userId == uid)).map LegacyUser.walletBalance
      = ((l.find? (fun u => u.userId == uid)).map
          LegacyUser.walletBalance).map (fun b => b + d) := by
  induction l with
  | nil => rfl
  | cons x xs ih =>
    by_cases h : x.userId = uid
    · rw [List.map_cons, List.find?_cons_of_pos _ (by simp [h]),
        List.find?_cons_of_pos _ (by simp [h])]
      simp [h]
    · rw [List.map_cons, List.find?_cons_of_neg _ (by simp [h]),
        List.find?_cons_of_neg _ (by simp [h])]
      exact ih

theorem legacyBalance_updateWalletBalance (st : LegacyState) (uid : Int)
    (a : ℚ) (t : Bool) :
    legacyBalance (updateWalletBalance st uid a t) uid
      = (legacyBalance st uid).map (fun b => b + signedDelta a t) := by
  unfold legacyBalance updateWalletBalance signedDelta
  exact findBalance_mapUpdate st.users uid (if t then |a| else -|a|)

theorem findUser_mapSetBalance (l : List DBUser) (uid : Int) (v : ℚ) :
    ((l.map fun u =>
        if u.userId = uid then { u with walletBalance := v } else u).find?
          (fun u => u.userId == uid))
      = (l.find? (fun u => u.userId == uid)).map
          (fun u => { u with walletBalance := v }) := by
  induction l with
  | nil => rfl
  | cons x xs ih =>
    by_cases h : x.userId = uid
    · rw [List.map_cons, List.find?_cons_of_pos _ (by simp [h]),
        List.find?_cons_of_pos _ (by simp [h])]
      simp [h]
    · rw [List.map_cons, List.find?_cons_of_neg _ (by simp [h]),
        List.find?_cons_of_neg _ (by simp [h])]
      exact ih

theorem getBalance_setBalance (st : DBState) (uid : Int) (v : ℚ) (b : ℚ)
    (h : getBalance st uid = some b) :
    getBalance (setBalance st uid v) uid = some v := by
  unfold getBalance setBalance
  rw [findUser_mapSetBalance]
  unfold getBalance at h
  cases hf : st.users.find? (fun u => u.userId == uid) with
  | none => rw [hf] at h; exact absurd h (by simp)
  | some u => simp

theorem getBalance_updatePaymentStatus (st : DBState) (r s : String)
    (uid : Int) :
    getBalance (updatePaymentStatus st r s) uid = getBalance st uid := rfl

theorem getBalance_logSpending (st : DBState) (uid₀ uid : Int)
    (d : String) (a : ℚ) (c : Option String) (ty : String) :
    getBalance (logSpending st uid₀ d a c ty) uid = getBalance st uid := rfl

theorem updateUserBalance_add (st : DBState) (uid : Int) (a b : ℚ)
    (h : getBalance st uid = some b) :
    updateUserBalance st uid a "add"
      = (setBalance st uid (b + a), .ok (b + a)) := by
  unfold updateUserBalance
  rw [h]
  rfl

/- ===================================================================
   Concrete states used by the witnesses and counterexamples
   =================================================================== -/

/-- A store where payment `ref1` is already settled (`"successful"`)
and user 1 holds a balance of 100. -/
def settledState : DBState :=
  ⟨[⟨1, 100, 0, 0⟩], [⟨1, "ref1", 50, "successful"⟩], []⟩

/-- The provider's success report for `ref1`. -/
def successPD : ProviderData := ⟨"ref1", "success", 50, some 1⟩

/-- A store where payment `ref2` is still pending and user 1 holds 100. -/
def pendingState : DBState :=
  ⟨[⟨1, 100, 0, 0⟩], [⟨1, "ref2", 50, "pending"⟩], []⟩

/-- A success report for `ref2` whose metadata omits `user_id`. -/
def noUidPD : ProviderData := ⟨"ref2", "success", 50, none⟩

/-- A success report for `ref2` carrying `user_id` 1. -/
def withUidPD : ProviderData := ⟨"ref2", "success", 50, some 1⟩

/-- Legacy store: user 1 with wallet balance 5 (and an empty log). -/
def lowBalState : LegacyState := ⟨[⟨1, 0, 0, 5, none⟩], []⟩

/-- Microservices store: user 1 with wallet balance 5. -/
def dsLowState : DBState := ⟨[⟨1, 5, 0, 0⟩], [], []⟩

/-- Legacy store: user 7 eligible for disbursement (allowance 1000,
balance 5000, recipient code on file). -/
def c3State : LegacyState := ⟨[⟨7, 30000, 1000, 5000, some "RCP_1"⟩], []⟩

/-- Legacy store: user 2 with balance 0 and an empty log (so balance
and log sum agree before any operation). -/
def c4Start : LegacyState := ⟨[⟨2, 0, 0, 0, none⟩], []⟩

/-- Microservices store: user 3 with zeroed budget fields. -/
def budgetState : DBState := ⟨[⟨3, 0, 0, 0⟩], [], []⟩

/-- Legacy store: user 4 with zeroed budget fields. -/
def legacyBudgetState : LegacyState := ⟨[⟨4, 0, 0, 0, none⟩], []⟩

/-- A stand-in HMAC for witnesses: any keyed injection works, since
`handle_webhook` only ever compares its output for equality. -/
def concatHmac (secret payload : String) : String := secret ++ "|" ++ payload

/-- A stand-in serialization for witnesses. -/
def constDumps (wd : WebhookData) : String := wd.event

/-- A webhook payload for `ref2`. -/
def webhookPayload : WebhookData := ⟨"charge.success", withUidPD⟩

/- ===================================================================
   Claims
   =================================================================== -/

/-- C1: the claim says a settled reference is never re-credited; in the
code neither `verify_payment` nor the success-webhook path inspects the
stored status, so both credit user 1 again (100 → 150) although `ref1`
is already `"successful"`. -/
theorem C1_settled_reference_recredited :
    settledState.payments.map Payment.status = ["successful"] ∧
    getBalance settledState 1 = some 100 ∧
    getBalance (verifyPayment settledState "ref1" successPD).1 1 = some 150 ∧
    getBalance (processSuccessfulPayment settledState successPD).1 1
      = some 150 := by
  refine ⟨by decide, by decide, ?_, ?_⟩ <;>
    norm_num [verifyPayment, processSuccessfulPayment, updatePaymentStatus,
      updateUserBalance, getBalance, setBalance, logSpending, settledState,
      successPD, strLower, List.find?,
      (by decide : strLower "success" = "success")]

/-- C2: `DatabaseService.update_user_balance` does refuse the
overdraft and leaves the state unchanged, but the legacy
`update_wallet_balance` — the debit path the scheduler uses — subtracts
unconditionally: debiting 10 from a balance of 5 leaves -5, so the
balance does go below zero. -/
theorem C2_legacy_debit_overdraws :
    (updateWalletBalance lowBalState 1 10 false).users.map
        LegacyUser.walletBalance = [-5] ∧
    updateUserBalance dsLowState 1 10 "subtract"
      = (dsLowState, .error "Insufficient balance") := by
  constructor <;>
    norm_num [updateWalletBalance, updateUserBalance, getBalance, setBalance,
      lowBalState, dsLowState, List.find?,
      (show ¬("subtract" = "add") by decide)]

/-- C3: the claim says a same-day re-run debits each user at most once;
the scheduler's debit (`update_wallet_balance`) carries no reference of
any kind, so a second run on the same date debits user 7 again:
5000 → 4000 → 3000, with two deduction rows in the log. -/
theorem C3_second_run_debits_again :
    ((dailyAllowanceJob (fun _ => true) "2026-10-12"
        (dailyAllowanceJob (fun _ => true) "2026-10-12" c3State)).users.map
          LegacyUser.walletBalance = [3000]) ∧
    (((dailyAllowanceJob (fun _ => true) "2026-10-12"
        (dailyAllowanceJob (fun _ => true) "2026-10-12" c3State)).history.filter
          (fun e => decide (e.amount < 0))).map LegacySpend.amount
      = [-1000, -1000]) := by
  constructor <;>
    norm_num [dailyAllowanceJob, eligibleUsers, processAllowanceUser,
      updateWalletBalance, legacyLogSpending, c3State, List.find?,
      List.filter, List.foldl, (show ¬("RCP_1" = "") by decide)]

/-- C4 counterexample: starting from balance 0 with an empty log (so
balance = log sum), a single `update_wallet_balance` debit of 10 leaves
balance -10 while the log still sums to 0 — the balance is observed
negative and differs from the transaction-log sum. -/
theorem C4_debit_breaks_log_invariant :
    (updateWalletBalance c4Start 2 10 false).users.map
        LegacyUser.walletBalance = [-10] ∧
    userLogSum (updateWalletBalance c4Start 2 10 false) 2 = 0 ∧
    legacyBalance (updateWalletBalance c4Start 2 10 false) 2
      ≠ some (userLogSum (updateWalletBalance c4Start 2 10 false) 2) := by
  refine ⟨?_, ?_, ?_⟩ <;>
    norm_num [updateWalletBalance, legacyBalance, userLogSum, c4Start,
      List.find?, List.filter, List.foldl]

/-- C4 (amended): every delta is applied — none is ever rejected — so
the final balance is the initial balance plus the signed sum of all
deltas; the balance mutation never touches the log and `log_spending`
never touches the balances: the two are maintained independently. -/
theorem C4_balance_is_sum_of_applied_deltas (ops : List (ℚ × Bool))
    (st : LegacyState) (uid : Int) (b : ℚ)
    (h : legacyBalance st uid = some b) :
    legacyBalance (applyWalletOps st uid ops) uid
        = some (b + (ops.map fun op => signedDelta op.1 op.2).sum) ∧
    (applyWalletOps st uid ops).history = st.history ∧
    ∀ u d a ty, (legacyLogSpending st u d a ty).users = st.users := by
  refine ⟨?_, ?_, fun u d a ty => rfl⟩
  · induction ops generalizing st b with
    | nil => simpa using h
    | cons op ops ih =>
      have hb : legacyBalance (updateWalletBalance st uid op.1 op.2) uid
          = some (b + signedDelta op.1 op.2) := by
        rw [legacyBalance_updateWalletBalance, h]; rfl
      have h1 := ih (updateWalletBalance st uid op.1 op.2)
        (b + signedDelta op.1 op.2) hb
      show legacyBalance
          (applyWalletOps (updateWalletBalance st uid op.1 op.2) uid ops) uid = _
      rw [h1, List.map_cons, List.sum_cons, add_assoc]
  · clear h
    induction ops generalizing st with
    | nil => rfl
    | cons op ops ih =>
      show (applyWalletOps (updateWalletBalance st uid op.1 op.2) uid ops).history
          = st.history
      rw [ih (updateWalletBalance st uid op.1 op.2)]
      rfl

/-- C4 witness: two operations (top-up 10, debit 3) on user 2 starting
from balance 0 end at balance 7 with the log untouched. -/
theorem C4_balance_is_sum_witness :
    legacyBalance (applyWalletOps c4Start 2 [(10, true), (3, false)]) 2
        = some (0 + ([(10, true), (3, false)].map fun op =>
            signedDelta op.1 op.2).sum) ∧
    (applyWalletOps c4Start 2 [(10, true), (3, false)]).history
        = c4Start.history ∧
    ∀ u d a ty, (legacyLogSpending c4Start u d a ty).users = c4Start.users :=
  C4_balance_is_sum_of_applied_deltas [(10, true), (3, false)] c4Start 2 0
    (by decide)

/-- C5: the claim says a terminal status never changes again because
the update is conditional on `status = 'pending'`; the code's
`update_payment_status` is an unconditional `UPDATE ... WHERE
reference = $1`, so the already-`"successful"` payment `ref1` is
overwritten to `"failed"`. -/
theorem C5_terminal_status_overwritten :
    settledState.payments.map Payment.status = ["successful"] ∧
    (updatePaymentStatus settledState "ref1" "failed").payments.map
        Payment.status = ["failed"] := by
  constructor <;> norm_num [updatePaymentStatus, settledState]

/-- C6: whenever the recomputed HMAC over the (serialized) payload
differs from the supplied signature, `handle_webhook` raises before any
store access: the returned state is the input state untouched and the
outcome is the rejection.  In particular a tampered payload, whose
recomputed HMAC no longer matches the old signature, produces no ledger
mutation. -/
theorem C6_bad_signature_rejected_without_mutation
    (hmacHex : String → String → String) (jsonDumps : WebhookData → String)
    (secret : String) (st : DBState) (wd : WebhookData) (signature : String)
    (h : hmacHex secret (jsonDumps wd) ≠ signature) :
    handleWebhook hmacHex jsonDumps secret st wd signature
      = (st, .error "Invalid webhook signature") := by
  have hb : verifyWebhookSignature hmacHex jsonDumps secret wd signature
      = false := by
    unfold verifyWebhookSignature
    exact beq_false_of_ne (fun he => h he.symm)
  unfold handleWebhook
  rw [hb]
  rfl

/-- C6 witness: a concrete mismatched signature on a concrete payload
is rejected with the store unchanged. -/
theorem C6_bad_signature_witness :
    handleWebhook concatHmac constDumps "sec" pendingState webhookPayload
        "bad-signature"
      = (pendingState, .error "Invalid webhook signature") :=
  C6_bad_signature_rejected_without_mutation concatHmac constDumps "sec"
    pendingState webhookPayload "bad-signature" (by decide)

/-- C7 counterexample: for monthly amount 3.75 the quotient is 0.125,
a tie at the second decimal, and the two implementations persist
different allowances for the same input — the legacy `set_user_budget`
rounds half-even via Python `round` (0.12) while
`DatabaseService.update_user_budget` stores the `Decimal` quotient
coerced by the `DECIMAL(10,2)` column, ties away from zero (0.13) —
so there is no single consistent rounding mode; and no bounds
validation exists: a budget of -300 is accepted and yields -10. -/
theorem C7_rounding_mode_inconsistent :
    (setUserBudget legacyBudgetState 4 (15 / 4)).2 = 3 / 25 ∧
    getDailyAllowance (updateUserBudget budgetState 3 (15 / 4)) 3
        = some (13 / 100) ∧
    (3 / 25 : ℚ) ≠ 13 / 100 ∧
    (setUserBudget legacyBudgetState 4 (-300)).2 = -10 := by
  refine ⟨?_, ?_, ?_, ?_⟩ <;>
    norm_num [setUserBudget, roundTo2, roundHalfEven, getDailyAllowance,
      updateUserBudget, pgRound2, roundHalfAwayFromZero, budgetState,
      legacyBudgetState, List.any, List.find?]

/-- C7 (amended): both implementations persist a 2-decimal allowance
and agree on the scenario `set_budget(30000) = 1000.00`, but the
rounding mode is not consistent between them — half-even in the legacy
`set_user_budget` (3.75 → 0.12), half away from zero via the
`DECIMAL(10,2)` column in `DatabaseService.update_user_budget`
(3.75 → 0.13) — and neither validates the amount against configured
bounds: a negative budget is persisted (-300 → allowance -10). -/
theorem C7_two_decimal_persistence_without_validation :
    (setUserBudget legacyBudgetState 4 30000).2 = 1000 ∧
    getDailyAllowance (updateUserBudget budgetState 3 30000) 3 = some 1000 ∧
    (setUserBudget legacyBudgetState 4 (15 / 4)).2 = 3 / 25 ∧
    getDailyAllowance (updateUserBudget budgetState 3 (15 / 4)) 3
        = some (13 / 100) ∧
    (∃ j : ℤ, (3 / 25 : ℚ) = (j : ℚ) / 100) ∧
    (∃ k : ℤ, (13 / 100 : ℚ) = (k : ℚ) / 100) ∧
    getDailyAllowance (updateUserBudget budgetState 3 (-300)) 3
      = some (-10) := by
  refine ⟨?_, ?_, ?_, ?_, ⟨12, by norm_num⟩, ⟨13, by norm_num⟩, ?_⟩ <;>
    norm_num [setUserBudget, roundTo2, roundHalfEven, getDailyAllowance,
      updateUserBudget, pgRound2, roundHalfAwayFromZero, budgetState,
      legacyBudgetState, List.any, List.find?]

/-- C8: an account number that fails the format check (digits only,
exactly 10 of them) makes `BankService.validate_bank_account` return
`None` with zero gateway calls — the rejection happens before any
network access. -/
theorem C8_format_failure_precedes_network
    (gateway : String → String → Option ValidationResp)
    (accountNumber bankCode : String)
    (h : isValidAccountNumber accountNumber = false) :
    bankValidateAccount gateway accountNumber bankCode = (none, 0) := by
  unfold bankValidateAccount
  rw [h]
  rfl

/-- C8 witness: the malformed 7-digit account number `"1234567"` is
rejected with no gateway call, even against a gateway that would
happily answer. -/
theorem C8_format_failure_witness :
    bankValidateAccount (fun _ _ => some ⟨true, "JOHN DOE"⟩) "1234567" "035"
      = (none, 0) :=
  C8_format_failure_precedes_network (fun _ _ => some ⟨true, "JOHN DOE"⟩)
    "1234567" "035" (by decide)

/-- C9 counterexample: on persistent 401 the Monnify client
re-authenticates on every attempt — three times, not exactly once —
before failing, and the Korapay client performs no re-authentication at
all: a 401 there fails immediately. -/
theorem C9_reauthentication_not_single :
    monnifyRequest (fun _ => .http 401 "expired")
        = ⟨.error "Max retries exceeded", 3, []⟩ ∧
    (monnifyRequest (fun _ => .http 401 "expired")).reauthCount ≠ 1 ∧
    korapayRequest (fun _ => .http 401 "expired")
      = ⟨.error ("Authentication failed: " ++ "expired"), 0, []⟩ := by
  decide

/-- C9 (amended): 5xx and network failures are retried inside a loop of
3 attempts with increasing per-provider backoff delays ([2, 5, 10]
Monnify, [1, 2, 4] Korapay); a non-retryable 4xx returns the provider's
message immediately with no retry; on 401 the Monnify client
re-authenticates on every occurrence (up to 3 times) before failing,
while 403 (Monnify) and 401/403 (Korapay) fail at once with no
re-authentication. -/
theorem C9_retry_and_reauth_behavior (m : String) (r5 r4 : Nat → ApiResponse)
    (h0 : r5 0 = .netError m) (h1 : r5 1 = .http 503 m)
    (h2 : r5 2 = .http 200 m) (h3 : r4 0 = .http 400 m) :
    monnifyRequest r5 = ⟨.ok 2, 0, [2, 5]⟩ ∧
    korapayRequest r5 = ⟨.ok 2, 0, [1, 2]⟩ ∧
    monnifyRequest r4
        = ⟨.error ("API request failed: " ++ toString 400 ++ " - " ++ m), 0, []⟩ ∧
    korapayRequest r4
        = ⟨.error ("API request failed: " ++ toString 400 ++ " - " ++ m), 0, []⟩ ∧
    monnifyRequest (fun _ => .http 401 m)
        = ⟨.error "Max retries exceeded", 3, []⟩ ∧
    monnifyRequest (fun _ => .http 403 m)
        = ⟨.error ("API request failed: " ++ toString 403 ++ " - " ++ m), 0, []⟩ ∧
    korapayRequest (fun _ => .http 403 m)
      = ⟨.error ("Authentication failed: " ++ m), 0, []⟩ := by
  refine ⟨?_, ?_, ?_, ?_, ?_, ?_, ?_⟩ <;>
    simp [monnifyRequest, korapayRequest, monnifyAttempt, korapayAttempt,
      h0, h1, h2, h3, monnifyDelays, korapayDelays]

/-- C9 witness: the retry/re-auth behavior at a concrete response
schedule (network error, then 503, then 200; and an immediate 400). -/
theorem C9_retry_behavior_witness :
    monnifyRequest (fun n => if n = 0 then .netError "m"
        else if n = 1 then .http 503 "m" else .http 200 "m")
        = ⟨.ok 2, 0, [2, 5]⟩ ∧
    korapayRequest (fun n => if n = 0 then .netError "m"
        else if n = 1 then .http 503 "m" else .http 200 "m")
        = ⟨.ok 2, 0, [1, 2]⟩ ∧
    monnifyRequest (fun _ => .http 400 "m")
        = ⟨.error ("API request failed: " ++ toString 400 ++ " - " ++ "m"), 0, []⟩ ∧
    korapayRequest (fun _ => .http 400 "m")
        = ⟨.error ("API request failed: " ++ toString 400 ++ " - " ++ "m"), 0, []⟩ ∧
    monnifyRequest (fun _ => .http 401 "m")
        = ⟨.error "Max retries exceeded", 3, []⟩ ∧
    monnifyRequest (fun _ => .http 403 "m")
        = ⟨.error ("API request failed: " ++ toString 403 ++ " - " ++ "m"), 0, []⟩ ∧
    korapayRequest (fun _ => .http 403 "m")
      = ⟨.error ("Authentication failed: " ++ "m"), 0, []⟩ :=
  C9_retry_and_reauth_behavior "m"
    (fun n => if n = 0 then .netError "m"
      else if n = 1 then .http 503 "m" else .http 200 "m")
    (fun _ => .http 400 "m") (by decide) (by decide) (by decide) (by decide)

/-- C10 counterexample: on a success webhook whose metadata omits
`user_id`, `_process_successful_payment` returns before the status
update — the pending payment stays `"pending"`, contradicting the
claim that the stored status is still updated. -/
theorem C10_webhook_missing_uid_skips_status_update :
    processSuccessfulPayment pendingState noUidPD = (pendingState, .ok ()) ∧
    pendingState.payments.map Payment.status = ["pending"] := by
  constructor <;> norm_num [processSuccessfulPayment, pendingState, noUidPD]

/-- C10 (amended): settlement credits the `user_id` carried in the
provider metadata, never the one stored on the payment row; in
`verify_payment` a missing metadata `user_id` still updates the stored
status (to the provider's status) without crediting, while in the
webhook success path a missing `user_id` aborts before the status
update, so neither the status nor the wallet changes there. -/
theorem C10_metadata_user_is_credited (st : DBState) (ref : String)
    (pd0 pd1 : ProviderData) (uid : Int) (b : ℚ)
    (h0s : strLower pd0.status = "success") (h0u : pd0.metaUserId = none)
    (h1s : strLower pd1.status = "success") (h1u : pd1.metaUserId = some uid)
    (h1z : uid ≠ 0) (h1a : 0 < pd1.amount)
    (hb : getBalance st uid = some b) :
    verifyPayment st ref pd0
        = (updatePaymentStatus st ref "success", .ok "success") ∧
    processSuccessfulPayment st pd0 = (st, .ok ()) ∧
    getBalance (verifyPayment st ref pd1).1 uid = some (b + pd1.amount) := by
  refine ⟨?_, ?_, ?_⟩
  · unfold verifyPayment
    rw [h0s, h0u]
    rfl
  · unfold processSuccessfulPayment
    rw [h0u]
  · have hcond : uid ≠ 0 ∧ 0 < pd1.amount := ⟨h1z, h1a⟩
    have hb1 : getBalance (updatePaymentStatus st ref "success") uid
        = some b := by rw [getBalance_updatePaymentStatus]; exact hb
    unfold verifyPayment
    rw [h1s, h1u]
    rw [if_pos rfl]
    dsimp only
    rw [if_pos hcond]
    rw [updateUserBalance_add _ uid pd1.amount b hb1]
    dsimp only
    rw [getBalance_logSpending]
    exact getBalance_setBalance _ uid (b + pd1.amount) b hb1

/-- C10 witness: the amended behavior at a concrete store (`ref2`
pending, user 1 at balance 100) with concrete success reports with and
without metadata `user_id`. -/
theorem C10_metadata_user_witness :
    verifyPayment pendingState "ref2" noUidPD
        = (updatePaymentStatus pendingState "ref2" "success", .ok "success") ∧
    processSuccessfulPayment pendingState noUidPD = (pendingState, .ok ()) ∧
    getBalance (verifyPayment pendingState "ref2" withUidPD).1 1
      = some (100 + withUidPD.amount) :=
  C10_metadata_user_is_credited pendingState "ref2" noUidPD withUidPD 1 100
    (by decide) (by decide) (by decide) (by decide) (by decide) (by decide)
    (by decide)

end DailyChow
